import Mathlib

/-!
Shallow embedding of the INSURANCE-ANALYSER backend (NestJS/TypeScript).

The embedded code:
  * `AppController.processPdfSmart` and `AppController.analyzeCOI`
    (controller file, `src/unnamed/part_000`);
  * `GroqService` (`src/backend/src/groq.service.ts`): `pdfToImages`,
    `imageToBase64`, `processACORD25Pages`, `processMultiPageDocument`,
    `analyzeACORD25WithGroq`, `analyzeACORD25WithImages`;
  * `Gemini2Service.analyzeACORD25PDF` (`src/backend/src/gemini2.service.ts`);
  * `GeminiService.analyzeACORD25PDF` (inline-PDF backend, second half of
    `src/backend/src/main.ts`).

External collaborators (the Groq/Gemini HTTP APIs, pdf2pic rasterization,
`JSON.parse`) are modelled as oracle functions supplied in an environment
record; filesystem effects (`fs.writeFileSync`, `fs.unlinkSync`,
`fs.existsSync`, multer disk storage) are modelled by explicit state passing
over an association-list filesystem.  Machine-level byte contents of files
are abstracted: a PDF file is its list of page identifiers, an image file is
an opaque marker, and base64 blobs are represented by the originating path.
-/

deriving instance DecidableEq for Except

/-- Result of `JSON.parse` when it succeeds: either the JSON literal `null`
(ECMA-262 `JSON.parse "null"` evaluates to `null`) or some other JSON value,
kept opaque and identified by its source text. -/
inductive JVal where
  | jnull : JVal
  | jval (raw : String) : JVal
deriving DecidableEq, Repr

/-- A file durably stored in the upload directory: a PDF (abstracted to its
list of page identifiers) or a rasterized page image (contents irrelevant to
the embedded control flow). -/
inductive FsEntry where
  | pdfDoc (pages : List Nat) : FsEntry
  | imgFile : FsEntry
deriving DecidableEq, Repr

/-- Whether an `Except` value is a success (no exception escaped). -/
def exOk {e a : Type} : Except e a → Bool
  | .ok _ => true
  | .error _ => false

/-- The upload directory as an association list from path to file. -/
abbrev FS := List (String × FsEntry)

/-- `fs.existsSync` / reading a file: first binding for the path wins. -/
def FS.lookup : FS → String → Option FsEntry
  | [], _ => none
  | (q, v) :: rest, p => if q = p then some v else FS.lookup rest p

/-- `fs.unlinkSync`: remove every binding for the path. -/
def FS.erase : FS → String → FS
  | [], _ => []
  | (q, v) :: rest, p =>
    if q = p then FS.erase rest p else (q, v) :: FS.erase rest p

/-- `fs.writeFileSync`: a fresh binding shadows any older one. -/
def FS.set (fs : FS) (p : String) (v : FsEntry) : FS := (p, v) :: fs

/-- The `if (fs.existsSync(p)) fs.unlinkSync(p)` idiom used by both the
controller's `finally` block and `processPdfSmart`. -/
def FS.eraseIfExists (fs : FS) (p : String) : FS :=
  if (fs.lookup p).isSome then fs.erase p else fs

namespace Str

/-!  String primitives re-implemented by structural recursion over
`List Char` so that every definition in this file evaluates inside the
kernel (the core `String` operations are stated over byte positions and do
not reduce definitionally). -/

/-- Whether the first list is a prefix of the second. -/
def leadsWith : List Char → List Char → Bool
  | [], _ => true
  | _ :: _, [] => false
  | a :: as, b :: bs => a = b && leadsWith as bs

/-- Split at the first occurrence of `pat`: `some (pre, post)` with the
occurrence removed, `none` when `pat` does not occur. -/
def breakOn (pat : List Char) : List Char → Option (List Char × List Char)
  | [] => if pat = [] then some ([], []) else none
  | c :: rest =>
    if leadsWith pat (c :: rest) then some ([], (c :: rest).drop pat.length)
    else
      match breakOn pat rest with
      | none => none
      | some (pre, post) => some (c :: pre, post)

def startsWith (s pat : String) : Bool := leadsWith pat.data s.data

def endsWith (s pat : String) : Bool := leadsWith pat.data.reverse s.data.reverse

def drop (s : String) (n : Nat) : String := String.mk (s.data.drop n)

def dropRight (s : String) (n : Nat) : String :=
  String.mk ((s.data.reverse.drop n).reverse)

def trimLeft (s : String) : String :=
  String.mk (s.data.dropWhile Char.isWhitespace)

def trimRight (s : String) : String :=
  String.mk ((s.data.reverse.dropWhile Char.isWhitespace).reverse)

def trim (s : String) : String := trimLeft (trimRight s)

def toLower (s : String) : String := String.mk (s.data.map Char.toLower)

/-- Whether `pat` occurs as a substring of `s`. -/
def hasSubstr (s pat : String) : Bool := (breakOn pat.data s.data).isSome

/-- JavaScript `String.prototype.replace` with a plain-string pattern:
replaces only the first occurrence, returns the string unchanged when the
pattern does not occur. -/
def replaceFirst (s pat rep : String) : String :=
  match breakOn pat.data s.data with
  | none => s
  | some (pre, post) => String.mk (pre ++ rep.data ++ post)

/-- The characters of the last `/`-separated component of a path. -/
def lastComponent (s : String) : List Char :=
  (s.data.reverse.takeWhile (fun c => c ≠ '/')).reverse

/-- `path.extname` (Node): extension of the last path component from its
last dot; empty when there is no dot or the only dot is leading. -/
def extname (p : String) : String :=
  let base := lastComponent p
  match breakOn ['.'] base.reverse with
  | none => ""
  | some (revExt, revRest) =>
    if revRest = [] then "" else String.mk ('.' :: revExt.reverse)

/-- `path.dirname` (Node): all but the last path component, `"."` when the
path has a single component (the root-path edge case, where Node keeps the
leading slash, is not exercised by relative upload paths). -/
def dirname (p : String) : String :=
  match breakOn ['/'] p.data.reverse with
  | none => "."
  | some (_, revInit) => String.mk revInit.reverse

end Str

/-- Alias kept at the controller's vocabulary level. -/
def extname (p : String) : String := Str.extname p

/-- Alias kept at the controller's vocabulary level. -/
def dirname (p : String) : String := Str.dirname p

/-- Alias for `Str.replaceFirst`. -/
def replaceFirst (s pat rep : String) : String := Str.replaceFirst s pat rep

/-- Alias for `Str.hasSubstr`. -/
def hasSubstr (s pat : String) : Bool := Str.hasSubstr s pat

/-- `AppController.processPdfSmart` (controller, lines 49-97).  Reads the
PDF at `pdfPath`; with at most 5 pages the same path is returned and the
filesystem is untouched; with more than 5 pages the first five pages are
copied into a new document written at
`pdfPath.replace('.pdf', '-5pages.pdf')`, then the original path is
unlinked if it still exists.  A path that fails to load as a PDF raises
the wrapped `PDF processing failed` error. -/
def processPdfSmart (fs : FS) (pdfPath : String) : Except String (String × FS) :=
  match fs.lookup pdfPath with
  | some (.pdfDoc pages) =>
    if pages.length ≤ 5 then
      .ok (pdfPath, fs)
    else
      let newDoc := pages.take 5
      let fivePagePdfPath := replaceFirst pdfPath ".pdf" "-5pages.pdf"
      let fs1 := fs.set fivePagePdfPath (.pdfDoc newDoc)
      let fs2 := fs1.eraseIfExists pdfPath
      .ok (fivePagePdfPath, fs2)
  | _ => .error "PDF processing failed: could not load PDF"

/-- Unlink every path in the list that still exists (the cleanup loops of
`processMultiPageDocument` and of the controller's `finally` block). -/
def cleanupPaths (fs : FS) (paths : List String) : FS :=
  paths.foldl (fun acc p => acc.eraseIfExists p) fs

namespace GroqService

/-- `GroqService.PRIMARY_MODEL`. -/
def PRIMARY_MODEL : String := "meta-llama/llama-4-scout-17b-16e-instruct"

/-- `GroqService.FALLBACK_MODEL`. -/
def FALLBACK_MODEL : String := "meta-llama/llama-4-maverick-17b-128e-instruct"

/-- Oracle for the external collaborators of `GroqService`:
`rasterOk i` says whether pdf2pic can render page `i` of the current source
(a page that exists may still fail to render); `respond model images` is the
Groq chat completion (`Except.error` for a thrown provider error,
`.ok none` for a response whose `message.content` is absent,
`.ok (some text)` otherwise); `jsonParse` is ECMA-262 `JSON.parse`,
`none` when it throws. -/
structure GroqEnv where
  rasterOk : Nat → Bool
  respond : String → List String → Except String (Option String)
  jsonParse : String → Option JVal

/-- The page loop of `pdfToImages` (groq.service.ts lines 63-74): for
`i = 1..5` attempt `convert(i)`; a failure (page out of range or
unrasterizable) breaks the loop.  Each produced image is a new durable
artifact named by pdf2pic's `saveFilename: "page"` convention. -/
def convertLoop (env : GroqEnv) (pageCount : Nat) (dir : String) :
    FS → List Nat → List String × FS
  | fs, [] => ([], fs)
  | fs, i :: rest =>
    if i ≤ pageCount ∧ env.rasterOk i = true then
      let pagePath := dir ++ "/page." ++ toString i ++ ".png"
      let fs1 := fs.set pagePath .imgFile
      let (ps, fs2) := convertLoop env pageCount dir fs1 rest
      (pagePath :: ps, fs2)
    else ([], fs)

/-- `GroqService.pdfToImages` (lines 51-80): converts at most the first
five pages of the PDF at `pdfPath` to PNG files next to it; per-page
failures are swallowed by breaking the loop, so the function itself
returns normally with however many images were produced (possibly none). -/
def pdfToImages (env : GroqEnv) (fs : FS) (pdfPath : String) : List String × FS :=
  let pageCount := match fs.lookup pdfPath with
    | some (.pdfDoc pages) => pages.length
    | _ => 0
  let sp := dirname pdfPath
  let savePath := if sp = "" then "./uploads" else sp
  convertLoop env pageCount savePath fs [1, 2, 3, 4, 5]

/-- `GroqService.imageToBase64` (lines 85-113): a data URI whose mime type
comes from the file extension (default `image/jpeg`).  The base64 payload
itself is abstracted to the source path. -/
def imageToBase64 (filePath : String) : String :=
  let mimeType := Str.toLower (extname filePath)
  let mimeString :=
    if mimeType = ".jpg" ∨ mimeType = ".jpeg" then "image/jpeg"
    else if mimeType = ".png" then "image/png"
    else if mimeType = ".gif" then "image/gif"
    else if mimeType = ".bmp" then "image/bmp"
    else if mimeType = ".tiff" then "image/tiff"
    else "image/jpeg"
  "data:" ++ mimeString ++ ";base64," ++ filePath

/-- The markdown-fence stripping performed on the trimmed model output
(groq.service.ts lines 205-213 and 285-293). -/
def stripFences (s : String) : String :=
  let s1 := if Str.startsWith s "```json" then Str.trimLeft (Str.drop s 7) else s
  let s2 := if Str.startsWith s1 "```" then Str.trimLeft (Str.drop s1 3) else s1
  if Str.endsWith s2 "```" then Str.trimRight (Str.dropRight s2 3) else s2

/-- `GroqService.processACORD25Pages` (lines 118-174).  One chat-completion
call on `this.currentModel`; on any failure (thrown provider error or
missing content) the service switches to the fallback model and retries by
calling itself, provided the current model is still the primary one;
otherwise the failure propagates.  Returns the outcome, the final
`currentModel`, and the list of models actually called. -/
def processACORD25Pages (env : GroqEnv) (cur : String) (imgs : List String) :
    Except String String × String × List String :=
  match env.respond cur imgs with
  | .ok (some content) => (.ok content, cur, [cur])
  | .ok none =>
    if _hp : cur = PRIMARY_MODEL then
      let r := processACORD25Pages env FALLBACK_MODEL imgs
      (r.1, r.2.1, cur :: r.2.2)
    else (.error "No content received from Groq API", cur, [cur])
  | .error e =>
    if _hp : cur = PRIMARY_MODEL then
      let r := processACORD25Pages env FALLBACK_MODEL imgs
      (r.1, r.2.1, cur :: r.2.2)
    else (.error e, cur, [cur])
termination_by (if cur = PRIMARY_MODEL then 1 else 0)
decreasing_by
  all_goals
    rw [if_pos _hp]
    have hne : ¬ FALLBACK_MODEL = PRIMARY_MODEL := by decide
    rw [if_neg hne]
    exact Nat.zero_lt_one

/-- `GroqService.processMultiPageDocument` (lines 179-245).  PDFs are
rasterized first (non-PDF paths are used directly as the single image);
an empty image list raises; the single batched Groq call may internally
take the one fallback hop; the response is fence-stripped and parsed.
The temporary page images are unlinked on successful parse and on parse
failure, but NOT when the Groq call itself failed (the catch at line 241
only logs and rethrows). -/
def processMultiPageDocument (env : GroqEnv) (cur : String) (fs : FS)
    (filePath : String) : Except String JVal × String × FS × List String :=
  let fileExt := Str.toLower (extname filePath)
  let converted :=
    if fileExt = ".pdf" then pdfToImages env fs filePath else ([filePath], fs)
  let imagePaths := converted.1
  let fs1 := converted.2
  let imageBase64Array := imagePaths.map imageToBase64
  if imageBase64Array.length = 0 then
    (.error "No images could be converted to base64", cur, fs1, [])
  else
    match processACORD25Pages env cur imageBase64Array with
    | (.error e, cur2, tr) => (.error e, cur2, fs1, tr)
    | (.ok result, cur2, tr) =>
      let jsonString := stripFences (Str.trim result)
      let fs2 := if fileExt = ".pdf" then cleanupPaths fs1 imagePaths else fs1
      match env.jsonParse jsonString with
      | none => (.error "Failed to parse AI response as JSON", cur2, fs2, tr)
      | some v => (.ok v, cur2, fs2, tr)

/-- `GroqService.analyzeACORD25WithGroq` (lines 250-258): resets the model
tier to primary, runs the multi-page pipeline, wraps any failure. -/
def analyzeACORD25WithGroq (env : GroqEnv) (_cur : String) (fs : FS)
    (pdfPath : String) : Except String JVal × String × FS × List String :=
  let cur1 := PRIMARY_MODEL
  match processMultiPageDocument env cur1 fs pdfPath with
  | (.error e, cur2, fs2, tr) => (.error ("Groq analysis failed: " ++ e), cur2, fs2, tr)
  | (.ok v, cur2, fs2, tr) => (.ok v, cur2, fs2, tr)

/-- `GroqService.analyzeACORD25WithImages` (lines 263-307): resets the
model tier to primary, bounds the batch at 5 images, runs the single
batched call and parses it.  No filesystem writes or deletes happen here
(the uploaded images belong to the controller). -/
def analyzeACORD25WithImages (env : GroqEnv) (_cur : String)
    (imagePaths : List String) : Except String JVal × String × List String :=
  let cur1 := PRIMARY_MODEL
  if imagePaths.length > 5 then
    (.error "Groq analysis failed: Maximum 5 images allowed", cur1, [])
  else
    let imageBase64Array := imagePaths.map imageToBase64
    if imageBase64Array.length = 0 then
      (.error "Groq analysis failed: No images could be converted to base64", cur1, [])
    else
      match processACORD25Pages env cur1 imageBase64Array with
      | (.error e, cur2, tr) => (.error ("Groq analysis failed: " ++ e), cur2, tr)
      | (.ok result, cur2, tr) =>
        let jsonString := stripFences (Str.trim result)
        match env.jsonParse jsonString with
        | none => (.error "Groq analysis failed: Failed to parse AI response as JSON", cur2, tr)
        | some v => (.ok v, cur2, tr)

end GroqService

namespace Gemini2Service

/-- `Gemini2Service.PRIMARY_MODEL`. -/
def PRIMARY_MODEL : String := "gemini-2.5-flash-lite"

/-- `Gemini2Service.FALLBACK_MODEL`. -/
def FALLBACK_MODEL : String := "gemini-2.5-flash"

/-- Oracle for the Files-API backend: `uploadOk` is whether
`ai.files.upload` returns (vs. throws); `fileFailed` is whether the polled
file state ends at `FAILED`; `generate model handlePresent` is
`ai.models.generateContent` (its `Bool` argument records whether
`uploadedFile` was ever assigned, since the fallback retry dereferences
`uploadedFile?.uri`); `.ok none` models a response with no `text`.
`jsonParse` is `JSON.parse`. -/
structure G2Env where
  uploadOk : Bool
  fileFailed : Bool
  generate : String → Bool → Except String (Option String)
  jsonParse : String → Option JVal

/-- The primary-tier attempt of `Gemini2Service.analyzeACORD25PDF`
(gemini2.service.ts lines 165-216): upload, poll, generate on
`this.currentModel`; empty text, the trimmed sentinel `"null"`, and
invalid JSON are all thrown.  Also returns the models called. -/
def g2Primary (env : G2Env) (cur : String) : Except String JVal × List String :=
  if env.uploadOk = false then (.error "upload failed", [])
  else if env.fileFailed = true then
    (.error "File processing failed on Google servers", [])
  else
    match env.generate cur env.uploadOk with
    | .error e => (.error e, [cur])
    | .ok none => (.error "Primary model returned null or empty result", [cur])
    | .ok (some t) =>
      if Str.trim t = "null" then
        (.error "Primary model returned null or empty result", [cur])
      else
        match env.jsonParse t with
        | some v => (.ok v, [cur])
        | none => (.error "Primary model returned invalid JSON", [cur])

/-- The fallback-tier retry in the catch block of
`Gemini2Service.analyzeACORD25PDF` (lines 217-249): one generate call on
the fallback model; every non-success outcome (provider error, empty
text, trimmed `"null"`, unparsable JSON) degrades to `none`. -/
def g2Fallback (env : G2Env) : Option JVal × List String :=
  match env.generate FALLBACK_MODEL env.uploadOk with
  | .error _ => (none, [FALLBACK_MODEL])
  | .ok none => (none, [FALLBACK_MODEL])
  | .ok (some t) =>
    if Str.trim t = "null" then (none, [FALLBACK_MODEL])
    else
      match env.jsonParse t with
      | some v => (some v, [FALLBACK_MODEL])
      | none => (none, [FALLBACK_MODEL])

/-- `Gemini2Service.analyzeACORD25PDF` (lines 44-263).  The primary
attempt runs on the *persisted* `this.currentModel` (the service never
resets it); any failure switches `currentModel` to the fallback model —
permanently, since nothing restores it — and takes the fallback attempt,
whose failures all degrade to a null result.  Returns the outcome, the
new `currentModel` field, and the called-model trace.  The local
filesystem is never touched here (the controller owns the file). -/
def analyzeACORD25PDF (env : G2Env) (cur : String) :
    Except String (Option JVal) × String × List String :=
  match g2Primary env cur with
  | (.ok v, tr) => (.ok (some v), cur, tr)
  | (.error _, tr) =>
    let (r, tr2) := g2Fallback env
    (.ok r, FALLBACK_MODEL, tr ++ tr2)

end Gemini2Service

namespace GeminiService

/-- The model name used by `GeminiService`: the constructor loads
`gemini-2.5-flash-lite` (main.ts line 34) and `switchToLiteModel` loads
the very same name (line 39), so the field always holds this string. -/
def INLINE_MODEL : String := "gemini-2.5-flash-lite"

/-- Oracle for the inline-PDF backend: `generate model payload` is the
`generateContent` round trip yielding `response.text()`; `jsonParse` is
`JSON.parse`, `none` when it throws. -/
structure InlineEnv where
  generate : String → String → Except String String
  jsonParse : String → Option JVal

/-- The first regex `/```json\s*([\s\S]*?)\s*```/` of
`GeminiService.analyzeACORD25PDF` (main.ts line 212): the trimmed text
between the first ` ```json ` fence and the following ` ``` ` fence,
`none` when there is no complete fenced block. -/
def extractFenced (t : String) : Option String :=
  match Str.breakOn ("```json".data) t.data with
  | none => none
  | some (_, after) =>
    match Str.breakOn ("```".data) after with
    | none => none
    | some (seg, _) => some (Str.trim (String.mk seg))

/-- The second regex `/\{[\s\S]*\}/` (greedy): the span from the first
open brace to the last close brace, when that span is non-degenerate. -/
def extractBraces (t : String) : Option String :=
  let chars := t.data
  match chars.findIdx? (fun c => c = Char.ofNat 123) with
  | none => none
  | some i =>
    match chars.reverse.findIdx? (fun c => c = Char.ofNat 125) with
    | none => none
    | some rj =>
      let j := chars.length - 1 - rj
      if i ≤ j then some (String.mk ((chars.drop i).take (j - i + 1)))
      else none

/-- `text.match(/```json.../) || text.match(/\{[\s\S]*\}/)`: group 1 of the
fenced match when it exists, else the whole brace match. -/
def extractJson (t : String) : Option String :=
  match extractFenced t with
  | some s => some s
  | none => extractBraces t

/-- One attempt of `GeminiService.analyzeACORD25PDF` (the shared shape of
main.ts lines 198-219 and 226-247): generate, extract a JSON span, parse
it.  `noJsonMsg` is the message thrown when no span is found (it differs
between the primary attempt and the lite retry). -/
def inlineAttempt (env : InlineEnv) (model payload noJsonMsg : String) :
    Except String JVal :=
  match env.generate model payload with
  | .error e => .error e
  | .ok text =>
    match extractJson text with
    | none => .error noJsonMsg
    | some js =>
      match env.jsonParse js with
      | some v => .ok v
      | none => .error "JSON parse error"

/-- `GeminiService.analyzeACORD25PDF` (main.ts lines 90-256): the primary
attempt's failure is caught, `switchToLiteModel` is called (a no-op on the
model name, see `INLINE_MODEL`), and the request is retried once; a
failure of the retry propagates to the outer catch and is re-thrown as
`Failed to analyze PDF: ...`.  Also returns the called-model trace. -/
def analyzeACORD25PDF (env : InlineEnv) (payload : String) :
    Except String JVal × List String :=
  match inlineAttempt env INLINE_MODEL payload
      "Could not extract JSON from Gemini response" with
  | .ok v => (.ok v, [INLINE_MODEL])
  | .error _ =>
    match inlineAttempt env INLINE_MODEL payload
        "Could not extract JSON from Gemini Lite response" with
    | .ok v => (.ok v, [INLINE_MODEL, INLINE_MODEL])
    | .error e =>
      (.error ("Failed to analyze PDF: " ++ e), [INLINE_MODEL, INLINE_MODEL])

end GeminiService

namespace AppController

/-- A file already persisted by multer's disk storage: its stored path and
its client-declared mime type (the `fileFilter` admits only
`application/pdf`, `image/png`, `image/jpeg`). -/
structure UFile where
  path : String
  mimetype : String
deriving DecidableEq, Repr

/-- The multer `filename` callback (controller lines 29-34): stored names
are `timestamp-random` plus `path.extname(file.originalname)` — the
extension comes from the client-supplied original name, independent of the
mime type used for PDF/image classification. -/
def storedFilename (timestamp random originalname : String) : String :=
  timestamp ++ "-" ++ random ++ extname originalname

/-- All external collaborators of one request. -/
structure Env where
  groq : GroqService.GroqEnv
  g2 : Gemini2Service.G2Env
  inl : GeminiService.InlineEnv

/-- `files.filter((f) => f.mimetype === 'application/pdf')` (line 125). -/
def pdfFilter (files : List UFile) : List UFile :=
  files.filter (fun f => f.mimetype = "application/pdf")

/-- `files.filter((f) => f.mimetype.startsWith('image/'))` (line 126). -/
def imgFilter (files : List UFile) : List UFile :=
  files.filter (fun f => Str.startsWith f.mimetype "image/")

/-- Everything the `try` block of `analyzeCOI` (controller lines 148-191)
leaves behind for the `catch`/`finally`: its outcome, the two cleanup
registers `savedFilePath` / `savedImagePaths`, the filesystem, the
persisted `Gemini2Service.currentModel` field, and the trace of dispatched
backends (named by the request's `model` string). -/
structure TryOut where
  res : Except String (Option JVal)
  savedFilePath : Option String
  savedImagePaths : List String
  fs : FS
  g2cur : String
  tr : List String

/-- The `try` block of `analyzeCOI`: PDF branch (truncate, then dispatch on
`model`), image branch (Groq only), or fall-through when neither filter
matched (then `analysis` stays undefined and the request "succeeds"). -/
def tryBody (env : Env) (g2cur : String) (pdfFiles imageFiles : List UFile)
    (model : String) (fs : FS) : TryOut :=
  match pdfFiles with
  | pdfFile :: _ =>
    match processPdfSmart fs pdfFile.path with
    | .error e => ⟨.error e, none, [], fs, g2cur, []⟩
    | .ok (processedPdfPath, fs1) =>
      let sfp := some processedPdfPath
      if model = "gemini2" then
        let r := Gemini2Service.analyzeACORD25PDF env.g2 g2cur
        ⟨r.1, sfp, [], fs1, r.2.1, ["gemini2"]⟩
      else if model = "gemini" then
        let r := GeminiService.analyzeACORD25PDF env.inl processedPdfPath
        ⟨r.1.map some, sfp, [], fs1, g2cur, ["gemini"]⟩
      else if model = "groq" then
        let r := GroqService.analyzeACORD25WithGroq env.groq
          GroqService.PRIMARY_MODEL fs1 processedPdfPath
        ⟨r.1.map some, sfp, [], r.2.2.1, g2cur, ["groq"]⟩
      else
        ⟨.error ("Invalid model for PDF processing: " ++ model ++
          ". Valid models are: gemini, gemini2, groq"), sfp, [], fs1, g2cur, []⟩
  | [] =>
    match imageFiles with
    | _ :: _ =>
      if model = "groq" then
        let imagePaths := imageFiles.map (fun f => f.path)
        let r := GroqService.analyzeACORD25WithImages env.groq
          GroqService.PRIMARY_MODEL imagePaths
        ⟨r.1.map some, none, imagePaths, fs, g2cur, ["groq"]⟩
      else
        ⟨.error ("Images can only be processed with Groq model. " ++
          "Please select Groq as the AI model for image processing."),
          none, [], fs, g2cur, []⟩
    | [] => ⟨.ok none, none, [], fs, g2cur, []⟩

/-- Result of one `POST /api/analyze-coi` request. -/
structure COIOut where
  res : Except String (Option JVal)
  fs : FS
  g2cur : String
  tr : List String

/-- `AppController.analyzeCOI` (controller lines 117-214).  The validation
throws (lines 121-141) happen before the `try`, so they run no cleanup;
inside the `try`, errors are wrapped as `Analysis failed: ...` by the
catch, and the `finally` unlinks `savedFilePath` and every
`savedImagePaths` entry that still exists. -/
def analyzeCOI (env : Env) (g2cur : String) (files : List UFile)
    (model : String) (fs : FS) : COIOut :=
  if files.length = 0 then ⟨.error "No files uploaded", fs, g2cur, []⟩
  else
    let pdfFiles := pdfFilter files
    let imageFiles := imgFilter files
    if pdfFiles.length > 1 then ⟨.error "Only 1 PDF file allowed", fs, g2cur, []⟩
    else if imageFiles.length > 5 then ⟨.error "Maximum 5 images allowed", fs, g2cur, []⟩
    else if pdfFiles.length ≠ 0 ∧ imageFiles.length ≠ 0 then
      ⟨.error "Cannot upload PDF and images together", fs, g2cur, []⟩
    else if model = "" then ⟨.error "Model selection is required", fs, g2cur, []⟩
    else
      let t := tryBody env g2cur pdfFiles imageFiles model fs
      let fsA := match t.savedFilePath with
        | some p => t.fs.eraseIfExists p
        | none => t.fs
      let fsB := cleanupPaths fsA t.savedImagePaths
      let res : Except String (Option JVal) := match t.res with
        | .error e => .error ("Analysis failed: " ++ e)
        | .ok v => .ok v
      ⟨res, fsB, t.g2cur, t.tr⟩

end AppController

/-! ## Library lemmas about the embedded primitives -/

theorem FS.lookup_erase_self (fs : FS) (p : String) :
    (fs.erase p).lookup p = none := by
  induction fs with
  | nil => rfl
  | cons hd tl ih =>
    obtain ⟨q, v⟩ := hd
    by_cases h : q = p
    · simp [FS.erase, h, ih]
    · simp [FS.erase, FS.lookup, h, ih]

theorem FS.lookup_erase_ne (fs : FS) (p q : String) (h : q ≠ p) :
    (fs.erase p).lookup q = fs.lookup q := by
  induction fs with
  | nil => rfl
  | cons hd tl ih =>
    obtain ⟨r, v⟩ := hd
    by_cases hr : r = p
    · subst hr
      have hpq : r ≠ q := fun hc => h hc.symm
      simp [FS.erase, FS.lookup, hpq, ih]
    · simp [FS.erase, FS.lookup, hr, ih]

theorem FS.lookup_eraseIfExists_self_none (fs : FS) (p : String) :
    (fs.eraseIfExists p).lookup p = none := by
  unfold FS.eraseIfExists
  cases hl : fs.lookup p with
  | none => simp [hl]
  | some v => simp [hl, FS.lookup_erase_self]

theorem FS.lookup_eraseIfExists_ne (fs : FS) (p q : String) (h : q ≠ p) :
    (fs.eraseIfExists p).lookup q = fs.lookup q := by
  unfold FS.eraseIfExists
  by_cases hs : (fs.lookup p).isSome
  · simp [hs, FS.lookup_erase_ne fs p q h]
  · simp [hs]

theorem FS.lookup_set_self (fs : FS) (p : String) (v : FsEntry) :
    (fs.set p v).lookup p = some v := by
  simp [FS.set, FS.lookup]

namespace Str

theorem leadsWith_eq (pat : List Char) : ∀ l : List Char,
    leadsWith pat l = true → l = pat ++ l.drop pat.length := by
  induction pat with
  | nil => intro l _; simp
  | cons a as ih =>
    intro l h
    cases l with
    | nil => simp [leadsWith] at h
    | cons b bs =>
      simp only [leadsWith, Bool.and_eq_true, decide_eq_true_eq] at h
      obtain ⟨hab, hrest⟩ := h
      simpa [hab] using congrArg (List.cons b) (ih bs hrest)

theorem breakOn_eq (pat : List Char) : ∀ (l pre post : List Char),
    breakOn pat l = some (pre, post) → l = pre ++ pat ++ post := by
  intro l
  induction l with
  | nil =>
    intro pre post h
    unfold breakOn at h
    split at h
    · rename_i hp
      simp only [Option.some.injEq, Prod.mk.injEq] at h
      obtain ⟨h1, h2⟩ := h
      subst h1; subst h2; simp [hp]
    · simp at h
  | cons c rest ih =>
    intro pre post h
    unfold breakOn at h
    split at h
    · rename_i hl
      simp only [Option.some.injEq, Prod.mk.injEq] at h
      obtain ⟨h1, h2⟩ := h
      subst h1; subst h2
      simpa using leadsWith_eq pat (c :: rest) hl
    · rename_i hl
      cases hb : breakOn pat rest with
      | none => rw [hb] at h; simp at h
      | some pr =>
        obtain ⟨pre2, post2⟩ := pr
        rw [hb] at h
        simp only [Option.some.injEq, Prod.mk.injEq] at h
        obtain ⟨h1, h2⟩ := h
        subst h1; subst h2
        simpa using congrArg (List.cons c) (ih pre2 post2 hb)

theorem replaceFirst_of_not_hasSubstr (s pat rep : String)
    (h : hasSubstr s pat = false) : replaceFirst s pat rep = s := by
  unfold hasSubstr at h
  unfold replaceFirst
  match hb : breakOn pat.data s.data with
  | none => rfl
  | some (pre, post) => rw [hb] at h; simp at h

theorem replaceFirst_ne_of_hasSubstr (s pat rep : String)
    (h : hasSubstr s pat = true) (hlen : pat.data.length ≠ rep.data.length) :
    replaceFirst s pat rep ≠ s := by
  unfold hasSubstr at h
  unfold replaceFirst
  match hb : breakOn pat.data s.data with
  | none => rw [hb] at h; simp at h
  | some (pre, post) =>
    have hs := breakOn_eq pat.data s.data pre post hb
    intro hc
    have hdata : pre ++ rep.data ++ post = s.data := congrArg String.data hc
    rw [hs] at hdata
    have hlength := congrArg List.length hdata
    rw [List.length_append, List.length_append, List.length_append,
      List.length_append] at hlength
    omega

end Str

/-! ## Shape lemmas about the backend services -/

namespace GroqService

theorem processACORD25Pages_trace_nonprimary (env : GroqEnv) (cur : String)
    (imgs : List String) (h : cur ≠ PRIMARY_MODEL) :
    (processACORD25Pages env cur imgs).2.2 = [cur] := by
  unfold processACORD25Pages
  cases hr : env.respond cur imgs with
  | error e => simp [h]
  | ok t =>
    cases t with
    | none => simp [h]
    | some c => simp

theorem processACORD25Pages_trace_le (env : GroqEnv) (cur : String)
    (imgs : List String) :
    (processACORD25Pages env cur imgs).2.2.length ≤ 2 := by
  by_cases h : cur = PRIMARY_MODEL
  · subst h
    unfold processACORD25Pages
    cases hr : env.respond PRIMARY_MODEL imgs with
    | error e =>
      simp [processACORD25Pages_trace_nonprimary env FALLBACK_MODEL imgs (by decide)]
    | ok t =>
      cases t with
      | none =>
        simp [processACORD25Pages_trace_nonprimary env FALLBACK_MODEL imgs (by decide)]
      | some c => simp
  · rw [processACORD25Pages_trace_nonprimary env cur imgs h]
    simp

end GroqService

namespace GroqService

theorem processACORD25Pages_trace_bound (env : GroqEnv) (cur : String)
    (imgs : List String) (r : Except String String) (c2 : String)
    (tr : List String) (h : processACORD25Pages env cur imgs = (r, c2, tr)) :
    tr.length ≤ 2 := by
  have hb := processACORD25Pages_trace_le env cur imgs
  rw [h] at hb
  simpa using hb

theorem processMultiPageDocument_trace_le (env : GroqEnv) (cur : String)
    (fs : FS) (filePath : String) :
    (processMultiPageDocument env cur fs filePath).2.2.2.length ≤ 2 := by
  unfold processMultiPageDocument
  dsimp only
  by_cases hext : Str.toLower (extname filePath) = ".pdf" <;>
    simp only [hext, if_true, if_false, Bool.false_eq_true, reduceCtorEq, ite_true,
      ite_false, if_pos, not_false_iff] <;>
  · split
    · simp
    · split
      · rename_i e cur2 tr heq
        exact processACORD25Pages_trace_bound _ _ _ _ _ _ heq
      · rename_i result cur2 tr heq
        split <;> simpa using processACORD25Pages_trace_bound _ _ _ _ _ _ heq

end GroqService

namespace GroqService

theorem processMultiPageDocument_trace_bound (env : GroqEnv) (cur : String)
    (fs : FS) (filePath : String) (r : Except String JVal) (c2 : String)
    (fs2 : FS) (tr : List String)
    (h : processMultiPageDocument env cur fs filePath = (r, c2, fs2, tr)) :
    tr.length ≤ 2 := by
  have hb := processMultiPageDocument_trace_le env cur fs filePath
  rw [h] at hb
  simpa using hb

theorem analyzeACORD25WithGroq_trace_le (env : GroqEnv) (cur : String)
    (fs : FS) (pdfPath : String) :
    (analyzeACORD25WithGroq env cur fs pdfPath).2.2.2.length ≤ 2 := by
  unfold analyzeACORD25WithGroq
  dsimp only
  split <;>
  · rename_i heq
    exact processMultiPageDocument_trace_bound _ _ _ _ _ _ _ _ heq

theorem analyzeACORD25WithImages_trace_le (env : GroqEnv) (cur : String)
    (imagePaths : List String) :
    (analyzeACORD25WithImages env cur imagePaths).2.2.length ≤ 2 := by
  unfold analyzeACORD25WithImages
  dsimp only
  split
  · simp
  · split
    · simp
    · split
      · rename_i e cur2 tr heq
        exact processACORD25Pages_trace_bound _ _ _ _ _ _ heq
      · rename_i result cur2 tr heq
        split <;> simpa using processACORD25Pages_trace_bound _ _ _ _ _ _ heq

end GroqService

namespace Gemini2Service

theorem g2Fallback_trace (env : G2Env) : (g2Fallback env).2 = [FALLBACK_MODEL] := by
  unfold g2Fallback
  split
  · rfl
  · rfl
  · split
    · rfl
    · split <;> rfl

theorem g2Primary_trace_le (env : G2Env) (cur : String) :
    (g2Primary env cur).2.length ≤ 1 := by
  unfold g2Primary
  split
  · simp
  · split
    · simp
    · split
      · simp
      · simp
      · split
        · simp
        · split <;> simp

theorem analyze_of_primary_fail (env : G2Env) (cur : String)
    (h : exOk (g2Primary env cur).1 = false) :
    analyzeACORD25PDF env cur
      = (.ok (g2Fallback env).1, FALLBACK_MODEL,
          (g2Primary env cur).2 ++ (g2Fallback env).2) := by
  unfold analyzeACORD25PDF
  rcases hp : g2Primary env cur with ⟨r, tr⟩
  rw [hp] at h
  cases r with
  | ok v => simp [exOk] at h
  | error e =>
    rcases hf : g2Fallback env with ⟨fr, ftr⟩
    simp [hp, hf]

theorem analyzeACORD25PDF_no_raise (env : G2Env) (cur : String) :
    exOk (analyzeACORD25PDF env cur).1 = true := by
  unfold analyzeACORD25PDF
  rcases hp : g2Primary env cur with ⟨r, tr⟩
  cases r with
  | ok v => simp [hp, exOk]
  | error e =>
    rcases hf : g2Fallback env with ⟨fr, ftr⟩
    simp [hp, hf, exOk]

theorem analyzeACORD25PDF_trace_le (env : G2Env) (cur : String) :
    (analyzeACORD25PDF env cur).2.2.length ≤ 2 := by
  unfold analyzeACORD25PDF
  rcases hp : g2Primary env cur with ⟨r, tr⟩
  have h1 := g2Primary_trace_le env cur
  rw [hp] at h1
  simp only at h1
  have h2 := g2Fallback_trace env
  cases r with
  | ok v => simp [hp]; omega
  | error e =>
    rcases hf : g2Fallback env with ⟨fr, ftr⟩
    rw [hf] at h2
    simp only at h2
    simp [hp, hf, h2]
    omega

end Gemini2Service

namespace GeminiService

theorem inline_analyze_trace_le (env : InlineEnv) (payload : String) :
    (analyzeACORD25PDF env payload).2.length ≤ 2 := by
  unfold analyzeACORD25PDF
  split
  · simp
  · split <;> simp

end GeminiService

/-! ## Claims -/

/-- Claim C7 (confirmed): for every PDF input whose page count is at most
5, truncation returns the very same document path unchanged — no new
artifact is written, the original file is not deleted, and the filesystem
is exactly the one read from. -/
theorem claim_C7_small_pdf_passthrough (fs : FS) (pdfPath : String)
    (pages : List Nat) (hread : fs.lookup pdfPath = some (.pdfDoc pages))
    (hle : pages.length ≤ 5) :
    processPdfSmart fs pdfPath = .ok (pdfPath, fs) := by
  simp [processPdfSmart, hread, hle]

/-- Witness for C7 at a concrete 3-page PDF. -/
theorem claim_C7_witness :
    processPdfSmart [("1700-aa.pdf", FsEntry.pdfDoc [10, 11, 12])] "1700-aa.pdf"
      = .ok ("1700-aa.pdf", [("1700-aa.pdf", FsEntry.pdfDoc [10, 11, 12])]) :=
  claim_C7_small_pdf_passthrough _ _ [10, 11, 12] (by decide) (by decide)

/-- Claim C6 counterexample: a PDF upload (mime `application/pdf`) whose
stored filename carries the client-supplied extension `.txt` has 6 pages;
`processPdfSmart` returns the original path together with an EMPTY
filesystem: the truncated document was not persisted as a new artifact
(the `'.pdf' → '-5pages.pdf'` replacement was a no-op, so the truncated
bytes were written over the original path and immediately unlinked),
refuting the claim as stated. -/
theorem claim_C6_counterexample :
    processPdfSmart [("1700-zz.txt", FsEntry.pdfDoc [0, 1, 2, 3, 4, 5])]
        "1700-zz.txt"
      = .ok ("1700-zz.txt", []) := by decide

/-- Claim C6 (corrected): for every PDF input with more than 5 pages whose
stored path contains the substring ".pdf" (so the
`'.pdf' → '-5pages.pdf'` substitution actually renames), truncation
produces a new artifact at a distinct path containing exactly the first 5
pages of the source in their original order, and deletes the original
artifact from disk. -/
theorem claim_C6_truncation_large_pdf (fs : FS) (pdfPath : String)
    (pages : List Nat) (hread : fs.lookup pdfPath = some (.pdfDoc pages))
    (hgt : 5 < pages.length) (hdot : hasSubstr pdfPath ".pdf" = true) :
    ∃ fs2,
      processPdfSmart fs pdfPath
        = .ok (replaceFirst pdfPath ".pdf" "-5pages.pdf", fs2)
      ∧ replaceFirst pdfPath ".pdf" "-5pages.pdf" ≠ pdfPath
      ∧ fs2.lookup (replaceFirst pdfPath ".pdf" "-5pages.pdf")
          = some (.pdfDoc (pages.take 5))
      ∧ (pages.take 5).length = 5
      ∧ (∀ i, i < 5 → (pages.take 5)[i]? = pages[i]?)
      ∧ fs2.lookup pdfPath = none := by
  have hne : replaceFirst pdfPath ".pdf" "-5pages.pdf" ≠ pdfPath :=
    Str.replaceFirst_ne_of_hasSubstr pdfPath ".pdf" "-5pages.pdf" hdot (by decide)
  refine ⟨(fs.set (replaceFirst pdfPath ".pdf" "-5pages.pdf")
      (.pdfDoc (pages.take 5))).eraseIfExists pdfPath, ?_, hne, ?_, ?_, ?_, ?_⟩
  · simp only [processPdfSmart, hread]
    rw [if_neg (by omega)]
  · rw [FS.lookup_eraseIfExists_ne _ _ _ hne, FS.lookup_set_self]
  · simp [List.length_take]; omega
  · intro i hi
    rw [List.getElem?_take, if_pos hi]
  · exact FS.lookup_eraseIfExists_self_none _ _

/-- Witness for C6 at a concrete 6-page PDF stored as `1700-bb.pdf`. -/
theorem claim_C6_witness :
    ∃ fs2,
      processPdfSmart [("1700-bb.pdf", FsEntry.pdfDoc [0, 1, 2, 3, 4, 5])]
          "1700-bb.pdf"
        = .ok (replaceFirst "1700-bb.pdf" ".pdf" "-5pages.pdf", fs2)
      ∧ replaceFirst "1700-bb.pdf" ".pdf" "-5pages.pdf" ≠ "1700-bb.pdf"
      ∧ fs2.lookup (replaceFirst "1700-bb.pdf" ".pdf" "-5pages.pdf")
          = some (.pdfDoc ([0, 1, 2, 3, 4, 5].take 5))
      ∧ (([0, 1, 2, 3, 4, 5] : List Nat).take 5).length = 5
      ∧ (∀ i, i < 5 →
          (([0, 1, 2, 3, 4, 5] : List Nat).take 5)[i]? = ([0, 1, 2, 3, 4, 5] : List Nat)[i]?)
      ∧ fs2.lookup "1700-bb.pdf" = none :=
  claim_C6_truncation_large_pdf _ _ [0, 1, 2, 3, 4, 5] (by decide) (by decide) (by decide)

/-- Claim C10 (confirmed): for every stored PDF path that does not contain
the substring ".pdf" — reachable, since `storedFilename` takes the stored
extension from the client-supplied original name while the PDF/image
classification uses the mime type — the truncated-file path computed by
substring replacement equals the original path; truncation then writes the
truncated document to that very path, immediately unlinks that same file,
and returns a path at which no file exists. -/
theorem claim_C10_extensionless_path_self_destruct (fs : FS) (pdfPath : String)
    (pages : List Nat) (hext : hasSubstr pdfPath ".pdf" = false)
    (hread : fs.lookup pdfPath = some (.pdfDoc pages)) (hgt : 5 < pages.length) :
    replaceFirst pdfPath ".pdf" "-5pages.pdf" = pdfPath
    ∧ processPdfSmart fs pdfPath
        = .ok (pdfPath, (fs.set pdfPath (.pdfDoc (pages.take 5))).erase pdfPath)
    ∧ ((fs.set pdfPath (.pdfDoc (pages.take 5))).erase pdfPath).lookup pdfPath
        = none := by
  have hrepl : replaceFirst pdfPath ".pdf" "-5pages.pdf" = pdfPath :=
    Str.replaceFirst_of_not_hasSubstr pdfPath ".pdf" "-5pages.pdf" hext
  refine ⟨hrepl, ?_, FS.lookup_erase_self _ _⟩
  simp only [processPdfSmart, hread]
  rw [if_neg (by omega)]
  simp [hrepl, FS.eraseIfExists, FS.lookup_set_self]

/-- Witness for C10: the stored filename for client name `scan.txt`
(a PDF by mime type) is `1700-zz.txt`; after truncation of a 6-page
document there, no file exists at the returned path. -/
theorem claim_C10_witness :
    replaceFirst (AppController.storedFilename "1700" "zz" "scan.txt")
        ".pdf" "-5pages.pdf"
      = AppController.storedFilename "1700" "zz" "scan.txt"
    ∧ processPdfSmart
        [(AppController.storedFilename "1700" "zz" "scan.txt",
          FsEntry.pdfDoc [0, 1, 2, 3, 4, 5])]
        (AppController.storedFilename "1700" "zz" "scan.txt")
        = .ok (AppController.storedFilename "1700" "zz" "scan.txt",
            (FS.set [(AppController.storedFilename "1700" "zz" "scan.txt",
                FsEntry.pdfDoc [0, 1, 2, 3, 4, 5])]
              (AppController.storedFilename "1700" "zz" "scan.txt")
              (.pdfDoc ([0, 1, 2, 3, 4, 5].take 5))).erase
              (AppController.storedFilename "1700" "zz" "scan.txt"))
    ∧ ((FS.set [(AppController.storedFilename "1700" "zz" "scan.txt",
          FsEntry.pdfDoc [0, 1, 2, 3, 4, 5])]
        (AppController.storedFilename "1700" "zz" "scan.txt")
        (.pdfDoc ([0, 1, 2, 3, 4, 5].take 5))).erase
        (AppController.storedFilename "1700" "zz" "scan.txt")).lookup
        (AppController.storedFilename "1700" "zz" "scan.txt")
      = none :=
  claim_C10_extensionless_path_self_destruct _ _ [0, 1, 2, 3, 4, 5]
    (by decide) (by decide) (by decide)

/-- Claim C8 counterexample: for a source whose page 1 cannot be
rasterized, `pdfToImages` does not fail — it returns normally with an
empty image sequence and an unchanged filesystem, refuting the claim that
the rasterization step fails with a RasterizationError. -/
theorem claim_C8_counterexample :
    GroqService.pdfToImages
      ⟨fun _ => false, fun _ _ => .ok (some "irrelevant"), fun _ => none⟩
      [("u/1700-cc.pdf", FsEntry.pdfDoc [0, 1, 2])] "u/1700-cc.pdf"
      = ([], [("u/1700-cc.pdf", FsEntry.pdfDoc [0, 1, 2])]) := by decide

/-- Claim C8 (corrected): when page 1 of a PDF cannot be rasterized at
all, `pdfToImages` succeeds with the empty image list; the failure
surfaces one step later in `processMultiPageDocument`, which raises the
generic `No images could be converted to base64` error (no
RasterizationError type exists in the code), so the pipeline still ends in
an error rather than proceeding with zero images. -/
theorem claim_C8_page1_failure (env : GroqService.GroqEnv) (cur : String)
    (fs : FS) (pdfPath : String) (h1 : env.rasterOk 1 = false)
    (hext : Str.toLower (extname pdfPath) = ".pdf") :
    GroqService.pdfToImages env fs pdfPath = ([], fs)
    ∧ GroqService.processMultiPageDocument env cur fs pdfPath
        = (.error "No images could be converted to base64", cur, fs, []) := by
  have himg : GroqService.pdfToImages env fs pdfPath = ([], fs) := by
    simp [GroqService.pdfToImages, GroqService.convertLoop, h1]
  refine ⟨himg, ?_⟩
  simp [GroqService.processMultiPageDocument, hext, himg]

/-- Witness for C8: a concrete environment whose rasterizer fails on every
page, applied to a stored `.pdf` path. -/
theorem claim_C8_witness :
    GroqService.pdfToImages
      ⟨fun _ => false, fun _ _ => .error "boom", fun _ => none⟩
      [("u/1700-dd.pdf", FsEntry.pdfDoc [0])] "u/1700-dd.pdf"
      = ([], [("u/1700-dd.pdf", FsEntry.pdfDoc [0])])
    ∧ GroqService.processMultiPageDocument
        ⟨fun _ => false, fun _ _ => .error "boom", fun _ => none⟩
        GroqService.PRIMARY_MODEL
        [("u/1700-dd.pdf", FsEntry.pdfDoc [0])] "u/1700-dd.pdf"
        = (.error "No images could be converted to base64",
            GroqService.PRIMARY_MODEL,
            [("u/1700-dd.pdf", FsEntry.pdfDoc [0])], []) :=
  claim_C8_page1_failure _ _ _ _ (by decide) (by decide)

theorem g2Primary_trace_of_clean_upload (env : Gemini2Service.G2Env)
    (cur : String) (hu : env.uploadOk = true) (hf : env.fileFailed = false) :
    (Gemini2Service.g2Primary env cur).2 = [cur] := by
  unfold Gemini2Service.g2Primary
  simp only [hu, hf, Bool.true_eq_false, Bool.false_eq_true, if_false]
  split
  · rfl
  · rfl
  · split
    · rfl
    · split <;> rfl

theorem g2Primary_fail_of_null (env : Gemini2Service.G2Env) (cur : String)
    (hg : ∀ m b, env.generate m b = .ok (some "null")) :
    exOk (Gemini2Service.g2Primary env cur).1 = false := by
  unfold Gemini2Service.g2Primary
  split
  · simp [exOk]
  · split
    · simp [exOk]
    · rw [hg]
      have ht : Str.trim "null" = "null" := by decide
      simp [ht, exOk]

theorem g2Fallback_null_of_null (env : Gemini2Service.G2Env)
    (hg : ∀ m b, env.generate m b = .ok (some "null")) :
    (Gemini2Service.g2Fallback env).1 = none := by
  unfold Gemini2Service.g2Fallback
  rw [hg]
  have ht : Str.trim "null" = "null" := by decide
  simp [ht]

/-- Claim C4 (confirmed): for every single backend call in every backend
variant at most one fallback escalation happens: the called-model trace of
each variant has length at most 2, so after the one switch to the fallback
model a failure of the fallback attempt terminates the call (propagating
or degrading) with no further retries and no unbounded recursion. -/
theorem claim_C4_at_most_one_fallback_hop (genv : GroqService.GroqEnv)
    (g2env : Gemini2Service.G2Env) (ienv : GeminiService.InlineEnv)
    (curA curB g2cur payload pdfPath : String) (fs : FS)
    (imagePaths : List String) :
    (GroqService.analyzeACORD25WithGroq genv curA fs pdfPath).2.2.2.length ≤ 2
    ∧ (GroqService.analyzeACORD25WithImages genv curB imagePaths).2.2.length ≤ 2
    ∧ (Gemini2Service.analyzeACORD25PDF g2env g2cur).2.2.length ≤ 2
    ∧ (GeminiService.analyzeACORD25PDF ienv payload).2.length ≤ 2 :=
  ⟨GroqService.analyzeACORD25WithGroq_trace_le genv curA fs pdfPath,
   GroqService.analyzeACORD25WithImages_trace_le genv curB imagePaths,
   Gemini2Service.analyzeACORD25PDF_trace_le g2env g2cur,
   GeminiService.inline_analyze_trace_le ienv payload⟩

/-- Claim C5 (confirmed): for the files-api (gemini2) backend, once the
fallback tier has been tried (the primary attempt failed), every
non-success outcome of the fallback attempt — a thrown provider error, an
absent response text, the sentinel-null response, or unparsable JSON —
yields a null result returned to the caller rather than a raised error. -/
theorem claim_C5_filesapi_fallback_degrades_to_null
    (env : Gemini2Service.G2Env) (cur : String)
    (hprim : exOk (Gemini2Service.g2Primary env cur).1 = false)
    (hfb : (∃ e, env.generate Gemini2Service.FALLBACK_MODEL env.uploadOk
              = .error e)
        ∨ env.generate Gemini2Service.FALLBACK_MODEL env.uploadOk = .ok none
        ∨ (∃ t, env.generate Gemini2Service.FALLBACK_MODEL env.uploadOk
              = .ok (some t)
            ∧ (Str.trim t = "null" ∨ env.jsonParse t = none))) :
    (Gemini2Service.analyzeACORD25PDF env cur).1 = .ok none := by
  have hnull : (Gemini2Service.g2Fallback env).1 = none := by
    unfold Gemini2Service.g2Fallback
    rcases hfb with ⟨e, he⟩ | he | ⟨t, ht, hcase⟩
    · rw [he]
    · rw [he]
    · rw [ht]
      rcases hcase with h1 | h1
      · simp [h1]
      · by_cases hs : Str.trim t = "null"
        · simp [hs]
        · simp [hs, h1]
  rw [Gemini2Service.analyze_of_primary_fail env cur hprim]
  simp [hnull]

/-- Witness for C5: both tiers throw a provider error; the call returns a
null result without raising. -/
theorem claim_C5_witness :
    (Gemini2Service.analyzeACORD25PDF
      ⟨true, false, fun _ _ => .error "server error", fun _ => none⟩
      Gemini2Service.PRIMARY_MODEL).1 = .ok none :=
  claim_C5_filesapi_fallback_degrades_to_null _ _ (by decide)
    (Or.inl ⟨"server error", rfl⟩)

/-- Claim C3 counterexample: the inline-PDF (gemini) backend, given the
raw model response `null` from both attempts, matches no JSON span and
raises `Failed to analyze PDF: ...` instead of returning a null result —
refuting the claim for "every backend". -/
theorem claim_C3_counterexample :
    (GeminiService.analyzeACORD25PDF
      ⟨fun _ _ => .ok "null", fun _ => none⟩ "payload").1
      = .error
        "Failed to analyze PDF: Could not extract JSON from Gemini Lite response" := by
  decide

/-- Claim C3 (corrected): a model response that trims to the literal
`null` is a successful null outcome for the multi-image (groq) backend
(`JSON.parse "null"` yields JSON null, which the service returns as the
parsed result) and for the files-api (gemini2) backend (whose extraction
never raises; when every tier answers `null` it returns a null result);
the inline-PDF (gemini) backend instead raises an error on such a
response. -/
theorem claim_C3_null_sentinel (genv : GroqService.GroqEnv)
    (g2env : Gemini2Service.G2Env) (cur g2cur : String)
    (imagePaths : List String)
    (hr : ∀ m imgs, genv.respond m imgs = .ok (some "null"))
    (hj : genv.jsonParse "null" = some JVal.jnull)
    (hne : imagePaths ≠ []) (hle : imagePaths.length ≤ 5)
    (hg : ∀ m b, g2env.generate m b = .ok (some "null")) :
    (GroqService.analyzeACORD25WithImages genv cur imagePaths).1 = .ok JVal.jnull
    ∧ exOk (Gemini2Service.analyzeACORD25PDF g2env g2cur).1 = true
    ∧ (Gemini2Service.analyzeACORD25PDF g2env g2cur).1 = .ok none := by
  refine ⟨?_, Gemini2Service.analyzeACORD25PDF_no_raise g2env g2cur, ?_⟩
  · have hp : GroqService.processACORD25Pages genv GroqService.PRIMARY_MODEL
        (imagePaths.map GroqService.imageToBase64)
        = (.ok "null", GroqService.PRIMARY_MODEL,
            [GroqService.PRIMARY_MODEL]) := by
      unfold GroqService.processACORD25Pages
      rw [hr]
    have hstrip : GroqService.stripFences (Str.trim "null") = "null" := by decide
    have hlen0 : ¬ (imagePaths.map GroqService.imageToBase64).length = 0 := by
      simp only [List.length_map, List.length_eq_zero]
      exact hne
    unfold GroqService.analyzeACORD25WithImages
    dsimp only
    rw [if_neg (by omega), if_neg hlen0, hp]
    simp [hstrip, hj]
  · rw [Gemini2Service.analyze_of_primary_fail g2env g2cur
      (g2Primary_fail_of_null g2env g2cur hg)]
    simp [g2Fallback_null_of_null g2env hg]

/-- Witness for C3 at concrete environments that always answer `null`. -/
theorem claim_C3_witness :
    (GroqService.analyzeACORD25WithImages
      ⟨fun _ => true, fun _ _ => .ok (some "null"),
        fun s => if s = "null" then some JVal.jnull else none⟩
      GroqService.PRIMARY_MODEL ["scan.png"]).1 = .ok JVal.jnull
    ∧ exOk (Gemini2Service.analyzeACORD25PDF
        ⟨true, false, fun _ _ => .ok (some "null"),
          fun s => if s = "null" then some JVal.jnull else none⟩
        Gemini2Service.PRIMARY_MODEL).1 = true
    ∧ (Gemini2Service.analyzeACORD25PDF
        ⟨true, false, fun _ _ => .ok (some "null"),
          fun s => if s = "null" then some JVal.jnull else none⟩
        Gemini2Service.PRIMARY_MODEL).1 = .ok none :=
  claim_C3_null_sentinel _ _ _ _ _ (fun m imgs => rfl) (by decide)
    (by decide) (by decide) (fun m b => rfl)

/-- Claim C2 counterexample: the files-api (gemini2) service never resets
`currentModel`.  A first request whose provider throws ends with the field
at the fallback model; the immediately following request's FIRST provider
call then already uses the fallback model — so a new request does not
start at the primary tier, refuting the claim. -/
theorem claim_C2_counterexample :
    ((Gemini2Service.analyzeACORD25PDF
        ⟨true, false, fun _ _ => .ok (some "certificate-json"),
          fun s => some (JVal.jval s)⟩
        (Gemini2Service.analyzeACORD25PDF
          ⟨true, false, fun _ _ => .error "server overloaded", fun _ => none⟩
          Gemini2Service.PRIMARY_MODEL).2.1).2.2).head?
      = some Gemini2Service.FALLBACK_MODEL
    ∧ Gemini2Service.FALLBACK_MODEL ≠ Gemini2Service.PRIMARY_MODEL := by
  constructor
  · decide
  · decide

/-- Claim C2 (corrected): the groq backends do reset to the primary tier
on every request — their results are independent of any carried model
state — but the files-api (gemini2) backend's tier persists across
requests: after a request whose primary attempt failed, the next request's
first provider call uses the fallback model. -/
theorem claim_C2_tier_reset_per_request (genv : GroqService.GroqEnv)
    (curA curB g2cur : String) (fs : FS) (pdfPath : String)
    (imagePaths : List String) (g2envA g2envB : Gemini2Service.G2Env)
    (hfail : exOk (Gemini2Service.g2Primary g2envA g2cur).1 = false)
    (hupB : g2envB.uploadOk = true) (hffB : g2envB.fileFailed = false) :
    GroqService.analyzeACORD25WithGroq genv curA fs pdfPath
      = GroqService.analyzeACORD25WithGroq genv curB fs pdfPath
    ∧ GroqService.analyzeACORD25WithImages genv curA imagePaths
      = GroqService.analyzeACORD25WithImages genv curB imagePaths
    ∧ ((Gemini2Service.analyzeACORD25PDF g2envB
          (Gemini2Service.analyzeACORD25PDF g2envA g2cur).2.1).2.2).head?
        = some Gemini2Service.FALLBACK_MODEL := by
  refine ⟨rfl, rfl, ?_⟩
  have h1 : (Gemini2Service.analyzeACORD25PDF g2envA g2cur).2.1
      = Gemini2Service.FALLBACK_MODEL := by
    rw [Gemini2Service.analyze_of_primary_fail _ _ hfail]
  rw [h1]
  have htr := g2Primary_trace_of_clean_upload g2envB
    Gemini2Service.FALLBACK_MODEL hupB hffB
  unfold Gemini2Service.analyzeACORD25PDF
  rcases hp : Gemini2Service.g2Primary g2envB Gemini2Service.FALLBACK_MODEL
    with ⟨r, tr⟩
  rw [hp] at htr
  simp only at htr
  subst htr
  cases r with
  | ok v => simp
  | error e =>
    rcases hf : Gemini2Service.g2Fallback g2envB with ⟨fr, ftr⟩
    simp [hf]

/-- Witness for C2: request one fails on the primary tier, request two
starts directly on the fallback model. -/
theorem claim_C2_witness :
    GroqService.analyzeACORD25WithGroq
        ⟨fun _ => true, fun _ _ => .ok (some "x"), fun _ => none⟩
        Gemini2Service.PRIMARY_MODEL [] "a.pdf"
      = GroqService.analyzeACORD25WithGroq
        ⟨fun _ => true, fun _ _ => .ok (some "x"), fun _ => none⟩
        Gemini2Service.FALLBACK_MODEL [] "a.pdf"
    ∧ GroqService.analyzeACORD25WithImages
        ⟨fun _ => true, fun _ _ => .ok (some "x"), fun _ => none⟩
        Gemini2Service.PRIMARY_MODEL ["scan.png"]
      = GroqService.analyzeACORD25WithImages
        ⟨fun _ => true, fun _ _ => .ok (some "x"), fun _ => none⟩
        Gemini2Service.FALLBACK_MODEL ["scan.png"]
    ∧ ((Gemini2Service.analyzeACORD25PDF
          ⟨true, false, fun _ _ => .ok (some "certificate-json"),
            fun s => some (JVal.jval s)⟩
          (Gemini2Service.analyzeACORD25PDF
            ⟨true, false, fun _ _ => .error "overloaded", fun _ => none⟩
            Gemini2Service.PRIMARY_MODEL).2.1).2.2).head?
        = some Gemini2Service.FALLBACK_MODEL :=
  claim_C2_tier_reset_per_request _ _ _ _ _ _ _ _ _ (by decide) (by decide)
    (by decide)

theorem pdfFilter_nil_of_images (files : List AppController.UFile)
    (h : ∀ f ∈ files, Str.startsWith f.mimetype "image/" = true) :
    AppController.pdfFilter files = [] := by
  unfold AppController.pdfFilter
  rw [List.filter_eq_nil_iff]
  intro f hf
  intro hc
  have hmime := of_decide_eq_true hc
  have := h f hf
  rw [hmime] at this
  exact absurd this (by decide)

theorem imgFilter_self_of_images (files : List AppController.UFile)
    (h : ∀ f ∈ files, Str.startsWith f.mimetype "image/" = true) :
    AppController.imgFilter files = files := by
  unfold AppController.imgFilter
  rw [List.filter_eq_self]
  intro f hf
  exact h f hf

theorem pdfFilter_singleton (f : AppController.UFile)
    (h : f.mimetype = "application/pdf") :
    AppController.pdfFilter [f] = [f] := by
  simp [AppController.pdfFilter, List.filter, h]

theorem imgFilter_singleton_pdf (f : AppController.UFile)
    (h : f.mimetype = "application/pdf") :
    AppController.imgFilter [f] = [] := by
  have hs : Str.startsWith f.mimetype "image/" = false := by rw [h]; decide
  simp [AppController.imgFilter, List.filter, hs]

theorem processPdfSmart_ok (fs : FS) (p : String) (pages : List Nat)
    (hread : fs.lookup p = some (.pdfDoc pages)) :
    ∃ pp fs1, processPdfSmart fs p = .ok (pp, fs1) := by
  unfold processPdfSmart
  rw [hread]
  dsimp only
  by_cases h : pages.length ≤ 5
  · exact ⟨_, _, by rw [if_pos h]⟩
  · exact ⟨_, _, by rw [if_neg h]⟩

theorem analyzeCOI_reject_of_mixture (env : AppController.Env) (g2cur : String)
    (fs : FS) (files : List AppController.UFile) (model : String)
    (hp : 1 ≤ (AppController.pdfFilter files).length)
    (hi : 1 ≤ (AppController.imgFilter files).length) :
    exOk (AppController.analyzeCOI env g2cur files model fs).res = false
    ∧ (AppController.analyzeCOI env g2cur files model fs).tr = []
    ∧ (AppController.analyzeCOI env g2cur files model fs).fs = fs := by
  have hne : ¬ files.length = 0 := by
    intro hc
    rw [List.length_eq_zero] at hc
    subst hc
    simp [AppController.pdfFilter] at hp
  unfold AppController.analyzeCOI
  dsimp only
  rw [if_neg hne]
  by_cases hp2 : (AppController.pdfFilter files).length > 1
  · rw [if_pos hp2]
    exact ⟨rfl, rfl, rfl⟩
  · rw [if_neg hp2]
    by_cases hi5 : (AppController.imgFilter files).length > 5
    · rw [if_pos hi5]
      exact ⟨rfl, rfl, rfl⟩
    · rw [if_neg hi5]
      rw [if_pos (⟨by omega, by omega⟩ :
        (AppController.pdfFilter files).length ≠ 0
        ∧ (AppController.imgFilter files).length ≠ 0)]
      exact ⟨rfl, rfl, rfl⟩

theorem analyzeCOI_reject_of_empty (env : AppController.Env) (g2cur : String)
    (fs : FS) (model : String) :
    (AppController.analyzeCOI env g2cur [] model fs).res
        = .error "No files uploaded"
    ∧ (AppController.analyzeCOI env g2cur [] model fs).tr = []
    ∧ (AppController.analyzeCOI env g2cur [] model fs).fs = fs := by
  unfold AppController.analyzeCOI
  dsimp only
  rw [if_pos (by simp : List.length ([] : List AppController.UFile) = 0)]
  exact ⟨rfl, rfl, rfl⟩

theorem analyzeCOI_reject_of_multi_pdf (env : AppController.Env)
    (g2cur : String) (fs : FS) (files : List AppController.UFile)
    (model : String) (hp : 2 ≤ (AppController.pdfFilter files).length) :
    exOk (AppController.analyzeCOI env g2cur files model fs).res = false
    ∧ (AppController.analyzeCOI env g2cur files model fs).tr = []
    ∧ (AppController.analyzeCOI env g2cur files model fs).fs = fs := by
  have hne : ¬ files.length = 0 := by
    intro hc
    rw [List.length_eq_zero] at hc
    subst hc
    simp [AppController.pdfFilter] at hp
  unfold AppController.analyzeCOI
  dsimp only
  rw [if_neg hne, if_pos (by omega :
    (AppController.pdfFilter files).length > 1)]
  exact ⟨rfl, rfl, rfl⟩

theorem analyzeCOI_reject_of_images_nongroq (env : AppController.Env)
    (g2cur : String) (fs : FS) (files : List AppController.UFile)
    (model : String) (hne : files ≠ [])
    (himg : ∀ f ∈ files, Str.startsWith f.mimetype "image/" = true)
    (hm : model ≠ "groq") :
    exOk (AppController.analyzeCOI env g2cur files model fs).res = false
    ∧ (AppController.analyzeCOI env g2cur files model fs).tr = [] := by
  have hpnil := pdfFilter_nil_of_images files himg
  have hiself := imgFilter_self_of_images files himg
  have hlen : ¬ files.length = 0 := by
    intro hc; exact hne (List.length_eq_zero.mp hc)
  unfold AppController.analyzeCOI
  dsimp only
  rw [if_neg hlen, hpnil, hiself]
  rw [if_neg (by simp : ¬ (List.length ([] : List AppController.UFile) > 1))]
  by_cases hi5 : files.length > 5
  · rw [if_pos hi5]
    exact ⟨rfl, rfl⟩
  · rw [if_neg hi5]
    rw [if_neg (fun h => h.1 rfl :
      ¬ ((List.length ([] : List AppController.UFile) ≠ 0)
        ∧ files.length ≠ 0))]
    by_cases hm0 : model = ""
    · rw [if_pos hm0]
      exact ⟨rfl, rfl⟩
    · rw [if_neg hm0]
      obtain ⟨f, rest, rfl⟩ := List.exists_cons_of_ne_nil hne
      have ht : AppController.tryBody env g2cur [] (f :: rest) model fs
          = ⟨.error ("Images can only be processed with Groq model. " ++
              "Please select Groq as the AI model for image processing."),
              none, [], fs, g2cur, []⟩ := by
        unfold AppController.tryBody
        dsimp only
        rw [if_neg hm]
      rw [ht]
      exact ⟨rfl, rfl⟩

theorem analyzeCOI_single_pdf_dispatch (env : AppController.Env)
    (g2cur : String) (fs : FS) (f : AppController.UFile) (pages : List Nat)
    (model : String) (hread : fs.lookup f.path = some (.pdfDoc pages))
    (hmime : f.mimetype = "application/pdf")
    (hmodel : model = "gemini" ∨ model = "gemini2" ∨ model = "groq") :
    (AppController.analyzeCOI env g2cur [f] model fs).tr = [model] := by
  have hp1 := pdfFilter_singleton f hmime
  have hi0 := imgFilter_singleton_pdf f hmime
  obtain ⟨pp, fs1, hps⟩ := processPdfSmart_ok fs f.path pages hread
  have hm0 : ¬ model = "" := by
    rcases hmodel with rfl | rfl | rfl <;> decide
  have ht : (AppController.tryBody env g2cur [f] [] model fs).tr = [model] := by
    unfold AppController.tryBody
    dsimp only
    rw [hps]
    dsimp only
    rcases hmodel with rfl | rfl | rfl
    · rw [if_neg (by decide), if_pos rfl]
    · rw [if_pos rfl]
    · rw [if_neg (by decide), if_neg (by decide), if_pos rfl]
  unfold AppController.analyzeCOI
  dsimp only
  rw [if_neg (by simp : ¬ (List.length [f] = 0)), hp1, hi0]
  rw [if_neg (by simp : ¬ (List.length [f] > 1))]
  rw [if_neg (by simp : ¬ (List.length ([] : List AppController.UFile) > 5))]
  rw [if_neg (fun h => h.2 rfl :
    ¬ ((List.length [f] ≠ 0)
      ∧ (List.length ([] : List AppController.UFile) ≠ 0)))]
  rw [if_neg hm0]
  exact ht

theorem analyzeCOI_images_dispatch (env : AppController.Env) (g2cur : String)
    (fs : FS) (files : List AppController.UFile) (hne : files ≠ [])
    (hle : files.length ≤ 5)
    (himg : ∀ f ∈ files, Str.startsWith f.mimetype "image/" = true) :
    (AppController.analyzeCOI env g2cur files "groq" fs).tr = ["groq"] := by
  have hpnil := pdfFilter_nil_of_images files himg
  have hiself := imgFilter_self_of_images files himg
  have hlen : ¬ files.length = 0 := by
    intro hc; exact hne (List.length_eq_zero.mp hc)
  obtain ⟨f, rest, rfl⟩ := List.exists_cons_of_ne_nil hne
  have ht : (AppController.tryBody env g2cur [] (f :: rest) "groq" fs).tr
      = ["groq"] := by
    unfold AppController.tryBody
    dsimp only
    rw [if_pos rfl]
  unfold AppController.analyzeCOI
  dsimp only
  rw [if_neg hlen, hpnil, hiself]
  rw [if_neg (by simp : ¬ (List.length ([] : List AppController.UFile) > 1))]
  rw [if_neg (by omega : ¬ ((f :: rest).length > 5))]
  rw [if_neg (fun h => h.1 rfl :
    ¬ ((List.length ([] : List AppController.UFile) ≠ 0)
      ∧ (f :: rest).length ≠ 0))]
  rw [if_neg (by decide : ¬ ("groq" : String) = "")]
  exact ht

/-- Claim C9 (confirmed): the orchestrator's validation rejects, before any
backend call is made (empty dispatch trace, and — for the pre-`try` checks
— an untouched filesystem): an empty upload, an input mixing a PDF with an
image (regardless of model), an input with more than one PDF, and an image
input whose selected model is not the multi-image (groq) backend; and it
accepts exactly the shapes one PDF (with model gemini, gemini2 or groq) or
1–5 images (with model groq), dispatching exactly one backend call. -/
theorem claim_C9_validation_shapes (env : AppController.Env) (g2cur : String)
    (fs : FS) :
    (∀ model,
      (AppController.analyzeCOI env g2cur [] model fs).res
          = .error "No files uploaded"
      ∧ (AppController.analyzeCOI env g2cur [] model fs).tr = []
      ∧ (AppController.analyzeCOI env g2cur [] model fs).fs = fs)
    ∧ (∀ files model, 1 ≤ (AppController.pdfFilter files).length →
        1 ≤ (AppController.imgFilter files).length →
        exOk (AppController.analyzeCOI env g2cur files model fs).res = false
        ∧ (AppController.analyzeCOI env g2cur files model fs).tr = []
        ∧ (AppController.analyzeCOI env g2cur files model fs).fs = fs)
    ∧ (∀ files model, 2 ≤ (AppController.pdfFilter files).length →
        exOk (AppController.analyzeCOI env g2cur files model fs).res = false
        ∧ (AppController.analyzeCOI env g2cur files model fs).tr = []
        ∧ (AppController.analyzeCOI env g2cur files model fs).fs = fs)
    ∧ (∀ files model, files ≠ [] →
        (∀ f ∈ files, Str.startsWith f.mimetype "image/" = true) →
        model ≠ "groq" →
        exOk (AppController.analyzeCOI env g2cur files model fs).res = false
        ∧ (AppController.analyzeCOI env g2cur files model fs).tr = [])
    ∧ (∀ f pages model, fs.lookup f.path = some (.pdfDoc pages) →
        f.mimetype = "application/pdf" →
        (model = "gemini" ∨ model = "gemini2" ∨ model = "groq") →
        (AppController.analyzeCOI env g2cur [f] model fs).tr = [model])
    ∧ (∀ files, files ≠ [] → files.length ≤ 5 →
        (∀ f ∈ files, Str.startsWith f.mimetype "image/" = true) →
        (AppController.analyzeCOI env g2cur files "groq" fs).tr = ["groq"]) :=
  ⟨fun model => analyzeCOI_reject_of_empty env g2cur fs model,
   fun files model hp hi =>
     analyzeCOI_reject_of_mixture env g2cur fs files model hp hi,
   fun files model hp =>
     analyzeCOI_reject_of_multi_pdf env g2cur fs files model hp,
   fun files model hne himg hm =>
     analyzeCOI_reject_of_images_nongroq env g2cur fs files model hne himg hm,
   fun f pages model hread hmime hmodel =>
     analyzeCOI_single_pdf_dispatch env g2cur fs f pages model hread hmime hmodel,
   fun files hne hle himg =>
     analyzeCOI_images_dispatch env g2cur fs files hne hle himg⟩

/-- Witness for C9: a mixed PDF+image upload is rejected with no backend
call and an untouched filesystem, while a lone PDF with model gemini2 and a
lone image with model groq each dispatch exactly one backend call. -/
theorem claim_C9_witness :
    (exOk (AppController.analyzeCOI
        ⟨⟨fun _ => true, fun _ _ => .ok (some "x"), fun _ => none⟩,
          ⟨true, false, fun _ _ => .ok (some "x"), fun _ => none⟩,
          ⟨fun _ _ => .ok "x", fun _ => none⟩⟩
        Gemini2Service.PRIMARY_MODEL
        [⟨"u1.pdf", "application/pdf"⟩, ⟨"u2.png", "image/png"⟩] "groq"
        [("u1.pdf", FsEntry.pdfDoc [0]), ("u2.png", FsEntry.imgFile)]).res
        = false
      ∧ (AppController.analyzeCOI
        ⟨⟨fun _ => true, fun _ _ => .ok (some "x"), fun _ => none⟩,
          ⟨true, false, fun _ _ => .ok (some "x"), fun _ => none⟩,
          ⟨fun _ _ => .ok "x", fun _ => none⟩⟩
        Gemini2Service.PRIMARY_MODEL
        [⟨"u1.pdf", "application/pdf"⟩, ⟨"u2.png", "image/png"⟩] "groq"
        [("u1.pdf", FsEntry.pdfDoc [0]), ("u2.png", FsEntry.imgFile)]).tr
        = []
      ∧ (AppController.analyzeCOI
        ⟨⟨fun _ => true, fun _ _ => .ok (some "x"), fun _ => none⟩,
          ⟨true, false, fun _ _ => .ok (some "x"), fun _ => none⟩,
          ⟨fun _ _ => .ok "x", fun _ => none⟩⟩
        Gemini2Service.PRIMARY_MODEL
        [⟨"u1.pdf", "application/pdf"⟩, ⟨"u2.png", "image/png"⟩] "groq"
        [("u1.pdf", FsEntry.pdfDoc [0]), ("u2.png", FsEntry.imgFile)]).fs
        = [("u1.pdf", FsEntry.pdfDoc [0]), ("u2.png", FsEntry.imgFile)])
    ∧ (AppController.analyzeCOI
        ⟨⟨fun _ => true, fun _ _ => .ok (some "x"), fun _ => none⟩,
          ⟨true, false, fun _ _ => .ok (some "x"), fun _ => none⟩,
          ⟨fun _ _ => .ok "x", fun _ => none⟩⟩
        Gemini2Service.PRIMARY_MODEL
        [⟨"u1.pdf", "application/pdf"⟩] "gemini2"
        [("u1.pdf", FsEntry.pdfDoc [0]), ("u2.png", FsEntry.imgFile)]).tr
        = ["gemini2"]
    ∧ (AppController.analyzeCOI
        ⟨⟨fun _ => true, fun _ _ => .ok (some "x"), fun _ => none⟩,
          ⟨true, false, fun _ _ => .ok (some "x"), fun _ => none⟩,
          ⟨fun _ _ => .ok "x", fun _ => none⟩⟩
        Gemini2Service.PRIMARY_MODEL
        [⟨"u2.png", "image/png"⟩] "groq"
        [("u1.pdf", FsEntry.pdfDoc [0]), ("u2.png", FsEntry.imgFile)]).tr
        = ["groq"] :=
  ⟨(claim_C9_validation_shapes
      ⟨⟨fun _ => true, fun _ _ => .ok (some "x"), fun _ => none⟩,
        ⟨true, false, fun _ _ => .ok (some "x"), fun _ => none⟩,
        ⟨fun _ _ => .ok "x", fun _ => none⟩⟩
      Gemini2Service.PRIMARY_MODEL
      [("u1.pdf", FsEntry.pdfDoc [0]), ("u2.png", FsEntry.imgFile)]).2.1
      [⟨"u1.pdf", "application/pdf"⟩, ⟨"u2.png", "image/png"⟩] "groq"
      (by decide) (by decide),
   (claim_C9_validation_shapes
      ⟨⟨fun _ => true, fun _ _ => .ok (some "x"), fun _ => none⟩,
        ⟨true, false, fun _ _ => .ok (some "x"), fun _ => none⟩,
        ⟨fun _ _ => .ok "x", fun _ => none⟩⟩
      Gemini2Service.PRIMARY_MODEL
      [("u1.pdf", FsEntry.pdfDoc [0]), ("u2.png", FsEntry.imgFile)]).2.2.2.2.1
      ⟨"u1.pdf", "application/pdf"⟩ [0] "gemini2" (by decide) rfl
      (Or.inr (Or.inl rfl)),
   (claim_C9_validation_shapes
      ⟨⟨fun _ => true, fun _ _ => .ok (some "x"), fun _ => none⟩,
        ⟨true, false, fun _ _ => .ok (some "x"), fun _ => none⟩,
        ⟨fun _ _ => .ok "x", fun _ => none⟩⟩
      Gemini2Service.PRIMARY_MODEL
      [("u1.pdf", FsEntry.pdfDoc [0]), ("u2.png", FsEntry.imgFile)]).2.2.2.2.2
      [⟨"u2.png", "image/png"⟩] (by decide) (by decide) (by decide)⟩

theorem FS.lookup_cleanupPaths_of_none (paths : List String) :
    ∀ (fs : FS) (p : String), fs.lookup p = none →
      (cleanupPaths fs paths).lookup p = none := by
  induction paths with
  | nil => intro fs p h; exact h
  | cons q rest ih =>
    intro fs p h
    unfold cleanupPaths
    simp only [List.foldl_cons]
    apply ih
    by_cases hpq : p = q
    · subst hpq; exact FS.lookup_eraseIfExists_self_none fs p
    · rw [FS.lookup_eraseIfExists_ne fs q p hpq]; exact h

theorem FS.lookup_cleanupPaths_of_mem (paths : List String) :
    ∀ (fs : FS) (p : String), p ∈ paths →
      (cleanupPaths fs paths).lookup p = none := by
  induction paths with
  | nil => intro fs p h; cases h
  | cons q rest ih =>
    intro fs p h
    unfold cleanupPaths
    simp only [List.foldl_cons]
    rcases List.mem_cons.mp h with rfl | hmem
    · have h0 : (fs.eraseIfExists p).lookup p = none :=
        FS.lookup_eraseIfExists_self_none fs p
      have hrest := FS.lookup_cleanupPaths_of_none rest (fs.eraseIfExists p) p h0
      simpa [cleanupPaths] using hrest
    · exact ih _ _ hmem

theorem analyzeCOI_single_pdf_final_fs (env : AppController.Env)
    (g2cur : String) (fs : FS) (f : AppController.UFile) (model : String)
    (hmime : f.mimetype = "application/pdf")
    (hmodel : model = "gemini" ∨ model = "gemini2")
    (pp : String) (fs1 : FS)
    (hps : processPdfSmart fs f.path = .ok (pp, fs1)) :
    (AppController.analyzeCOI env g2cur [f] model fs).fs
      = fs1.eraseIfExists pp := by
  have hp1 := pdfFilter_singleton f hmime
  have hi0 := imgFilter_singleton_pdf f hmime
  have hm0 : ¬ model = "" := by rcases hmodel with rfl | rfl <;> decide
  have hsfp : (AppController.tryBody env g2cur [f] [] model fs).savedFilePath
      = some pp := by
    unfold AppController.tryBody
    dsimp only
    rw [hps]
    dsimp only
    rcases hmodel with rfl | rfl
    · rw [if_neg (by decide), if_pos rfl]
    · rw [if_pos rfl]
  have hfs : (AppController.tryBody env g2cur [f] [] model fs).fs = fs1 := by
    unfold AppController.tryBody
    dsimp only
    rw [hps]
    dsimp only
    rcases hmodel with rfl | rfl
    · rw [if_neg (by decide), if_pos rfl]
    · rw [if_pos rfl]
  have himgs : (AppController.tryBody env g2cur [f] [] model fs).savedImagePaths
      = [] := by
    unfold AppController.tryBody
    dsimp only
    rw [hps]
    dsimp only
    rcases hmodel with rfl | rfl
    · rw [if_neg (by decide), if_pos rfl]
    · rw [if_pos rfl]
  unfold AppController.analyzeCOI
  dsimp only
  rw [if_neg (by simp : ¬ (List.length [f] = 0)), hp1, hi0]
  rw [if_neg (by simp : ¬ (List.length [f] > 1))]
  rw [if_neg (by simp : ¬ (List.length ([] : List AppController.UFile) > 5))]
  rw [if_neg (fun h => h.2 rfl :
    ¬ ((List.length [f] ≠ 0)
      ∧ (List.length ([] : List AppController.UFile) ≠ 0)))]
  rw [if_neg hm0]
  rw [hsfp, hfs, himgs]
  rfl

theorem analyzeCOI_images_final_fs (env : AppController.Env) (g2cur : String)
    (fs : FS) (files : List AppController.UFile) (hne : files ≠ [])
    (hle : files.length ≤ 5)
    (himg : ∀ f ∈ files, Str.startsWith f.mimetype "image/" = true) :
    (AppController.analyzeCOI env g2cur files "groq" fs).fs
      = cleanupPaths fs (files.map (fun f => f.path)) := by
  have hpnil := pdfFilter_nil_of_images files himg
  have hiself := imgFilter_self_of_images files himg
  have hlen : ¬ files.length = 0 := by
    intro hc; exact hne (List.length_eq_zero.mp hc)
  obtain ⟨f, rest, rfl⟩ := List.exists_cons_of_ne_nil hne
  have hsfp : (AppController.tryBody env g2cur [] (f :: rest) "groq" fs).savedFilePath
      = none := by
    unfold AppController.tryBody
    dsimp only
    rw [if_pos rfl]
  have hfs : (AppController.tryBody env g2cur [] (f :: rest) "groq" fs).fs = fs := by
    unfold AppController.tryBody
    dsimp only
    rw [if_pos rfl]
  have himgs : (AppController.tryBody env g2cur [] (f :: rest) "groq" fs).savedImagePaths
      = (f :: rest).map (fun f => f.path) := by
    unfold AppController.tryBody
    dsimp only
    rw [if_pos rfl]
  unfold AppController.analyzeCOI
  dsimp only
  rw [if_neg hlen, hpnil, hiself]
  rw [if_neg (by simp : ¬ (List.length ([] : List AppController.UFile) > 1))]
  rw [if_neg (by omega : ¬ ((f :: rest).length > 5))]
  rw [if_neg (fun h => h.1 rfl :
    ¬ ((List.length ([] : List AppController.UFile) ≠ 0)
      ∧ (f :: rest).length ≠ 0))]
  rw [if_neg (by decide : ¬ ("groq" : String) = "")]
  rw [hsfp, hfs, himgs]

/-- Claim C1 counterexample (two leak paths at concrete inputs).
First: a request mixing one PDF and one image is rejected by validation
BEFORE the `try`/`finally`, so no cleanup runs and both uploaded artifacts
remain in the upload directory after the request.  Second: a single-PDF
groq request whose provider call fails on both tiers rethrows without
deleting the rasterized page image, so `u/page.1.png` remains on disk
after the request ends in an error.  Both refute "zero leftover artifacts
after any request". -/
theorem claim_C1_counterexample :
    (AppController.analyzeCOI
        ⟨⟨fun _ => true, fun _ _ => .ok (some "x"), fun _ => none⟩,
          ⟨true, false, fun _ _ => .ok (some "x"), fun _ => none⟩,
          ⟨fun _ _ => .ok "x", fun _ => none⟩⟩
        Gemini2Service.PRIMARY_MODEL
        [⟨"u1.pdf", "application/pdf"⟩, ⟨"u2.png", "image/png"⟩] "groq"
        [("u1.pdf", FsEntry.pdfDoc [0]), ("u2.png", FsEntry.imgFile)]).res
      = .error "Cannot upload PDF and images together"
    ∧ (AppController.analyzeCOI
        ⟨⟨fun _ => true, fun _ _ => .ok (some "x"), fun _ => none⟩,
          ⟨true, false, fun _ _ => .ok (some "x"), fun _ => none⟩,
          ⟨fun _ _ => .ok "x", fun _ => none⟩⟩
        Gemini2Service.PRIMARY_MODEL
        [⟨"u1.pdf", "application/pdf"⟩, ⟨"u2.png", "image/png"⟩] "groq"
        [("u1.pdf", FsEntry.pdfDoc [0]), ("u2.png", FsEntry.imgFile)]).fs
      = [("u1.pdf", FsEntry.pdfDoc [0]), ("u2.png", FsEntry.imgFile)]
    ∧ exOk (AppController.analyzeCOI
        ⟨⟨fun _ => true, fun _ _ => .error "overloaded", fun _ => none⟩,
          ⟨true, false, fun _ _ => .ok (some "x"), fun _ => none⟩,
          ⟨fun _ _ => .ok "x", fun _ => none⟩⟩
        Gemini2Service.PRIMARY_MODEL
        [⟨"u/d.pdf", "application/pdf"⟩] "groq"
        [("u/d.pdf", FsEntry.pdfDoc [7])]).res = false
    ∧ (AppController.analyzeCOI
        ⟨⟨fun _ => true, fun _ _ => .error "overloaded", fun _ => none⟩,
          ⟨true, false, fun _ _ => .ok (some "x"), fun _ => none⟩,
          ⟨fun _ _ => .ok "x", fun _ => none⟩⟩
        Gemini2Service.PRIMARY_MODEL
        [⟨"u/d.pdf", "application/pdf"⟩] "groq"
        [("u/d.pdf", FsEntry.pdfDoc [7])]).fs
      = [("u/page.1.png", FsEntry.imgFile)] := by
  have hp : ∀ imgs, GroqService.processACORD25Pages
      ⟨fun _ => true, fun _ _ => .error "overloaded", fun _ => none⟩
      GroqService.PRIMARY_MODEL imgs
      = (.error "overloaded", GroqService.FALLBACK_MODEL,
          [GroqService.PRIMARY_MODEL, GroqService.FALLBACK_MODEL]) := by
    intro imgs
    unfold GroqService.processACORD25Pages
    dsimp only
    rw [dif_pos rfl]
    unfold GroqService.processACORD25Pages
    dsimp only
    rw [dif_neg (by decide :
      ¬ GroqService.FALLBACK_MODEL = GroqService.PRIMARY_MODEL)]
  have hmulti : GroqService.processMultiPageDocument
      ⟨fun _ => true, fun _ _ => .error "overloaded", fun _ => none⟩
      GroqService.PRIMARY_MODEL [("u/d.pdf", FsEntry.pdfDoc [7])] "u/d.pdf"
      = (.error "overloaded", GroqService.FALLBACK_MODEL,
          [("u/page.1.png", FsEntry.imgFile), ("u/d.pdf", FsEntry.pdfDoc [7])],
          [GroqService.PRIMARY_MODEL, GroqService.FALLBACK_MODEL]) := by
    unfold GroqService.processMultiPageDocument
    dsimp only
    rw [hp]
    decide
  have hgroq : GroqService.analyzeACORD25WithGroq
      ⟨fun _ => true, fun _ _ => .error "overloaded", fun _ => none⟩
      GroqService.PRIMARY_MODEL [("u/d.pdf", FsEntry.pdfDoc [7])] "u/d.pdf"
      = (.error "Groq analysis failed: overloaded", GroqService.FALLBACK_MODEL,
          [("u/page.1.png", FsEntry.imgFile), ("u/d.pdf", FsEntry.pdfDoc [7])],
          [GroqService.PRIMARY_MODEL, GroqService.FALLBACK_MODEL]) := by
    unfold GroqService.analyzeACORD25WithGroq
    dsimp only
    rw [hmulti]
    rfl
  have htb : AppController.tryBody
      ⟨⟨fun _ => true, fun _ _ => .error "overloaded", fun _ => none⟩,
        ⟨true, false, fun _ _ => .ok (some "x"), fun _ => none⟩,
        ⟨fun _ _ => .ok "x", fun _ => none⟩⟩
      Gemini2Service.PRIMARY_MODEL [⟨"u/d.pdf", "application/pdf"⟩] [] "groq"
      [("u/d.pdf", FsEntry.pdfDoc [7])]
      = ⟨.error "Groq analysis failed: overloaded", some "u/d.pdf", [],
          [("u/page.1.png", FsEntry.imgFile), ("u/d.pdf", FsEntry.pdfDoc [7])],
          Gemini2Service.PRIMARY_MODEL, ["groq"]⟩ := by
    unfold AppController.tryBody
    dsimp only
    rw [(by decide : processPdfSmart [("u/d.pdf", FsEntry.pdfDoc [7])] "u/d.pdf"
      = .ok ("u/d.pdf", [("u/d.pdf", FsEntry.pdfDoc [7])]))]
    dsimp only
    rw [if_neg (by decide), if_neg (by decide), if_pos rfl]
    rw [hgroq]
    rfl
  have hpf : AppController.pdfFilter [⟨"u/d.pdf", "application/pdf"⟩]
      = [⟨"u/d.pdf", "application/pdf"⟩] := by decide
  have himf : AppController.imgFilter [⟨"u/d.pdf", "application/pdf"⟩]
      = [] := by decide
  refine ⟨by decide, by decide, ?_, ?_⟩
  · unfold AppController.analyzeCOI
    dsimp only
    rw [hpf, himf]
    rw [if_neg (by decide), if_neg (by decide), if_neg (by decide),
      if_neg (by decide), if_neg (by decide)]
    rw [htb]
    decide
  · unfold AppController.analyzeCOI
    dsimp only
    rw [hpf, himf]
    rw [if_neg (by decide), if_neg (by decide), if_neg (by decide),
      if_neg (by decide), if_neg (by decide)]
    rw [htb]
    decide

/-- Claim C1 (corrected): artifact cleanup holds on the paths that reach
the `finally` block, but not universally.  Proved here: (1) for a
single-PDF request dispatched to the inline (gemini) or files-api
(gemini2) backend — neither of which touches the local filesystem — every
durable artifact of the request is deleted by the end of the request,
whatever the backend outcome: the uploaded/truncated file is gone, and
when truncation produced a renamed 5-page artifact that artifact is gone
too; (2) for every image request (1–5 images, groq), all uploaded image
artifacts are deleted, whatever the outcome.  Not covered (see the
counterexample): requests rejected by validation leave the uploaded files
on disk, and a groq-PDF request whose provider call fails leaves its
rasterized page images on disk. -/
theorem claim_C1_artifact_cleanup (env : AppController.Env) (g2cur : String)
    (fs : FS) :
    (∀ p pages model, fs.lookup p = some (.pdfDoc pages) →
      (model = "gemini" ∨ model = "gemini2") →
      ((AppController.analyzeCOI env g2cur
          [⟨p, "application/pdf"⟩] model fs).fs).lookup p = none
      ∧ (5 < pages.length →
          ((AppController.analyzeCOI env g2cur
              [⟨p, "application/pdf"⟩] model fs).fs).lookup
            (replaceFirst p ".pdf" "-5pages.pdf") = none))
    ∧ (∀ files, files ≠ [] → files.length ≤ 5 →
        (∀ f ∈ files, Str.startsWith f.mimetype "image/" = true) →
        ∀ f ∈ files,
          ((AppController.analyzeCOI env g2cur files "groq" fs).fs).lookup
            f.path = none) := by
  constructor
  · intro p pages model hread hmodel
    by_cases hle : pages.length ≤ 5
    · have hps : processPdfSmart fs p = .ok (p, fs) := by
        unfold processPdfSmart
        rw [hread]
        dsimp only
        rw [if_pos hle]
      have hf := analyzeCOI_single_pdf_final_fs env g2cur fs
        ⟨p, "application/pdf"⟩ model rfl hmodel p fs hps
      rw [hf]
      exact ⟨FS.lookup_eraseIfExists_self_none fs p,
        fun hgt => absurd hle (by omega)⟩
    · have hps : processPdfSmart fs p
          = .ok (replaceFirst p ".pdf" "-5pages.pdf",
              (fs.set (replaceFirst p ".pdf" "-5pages.pdf")
                (.pdfDoc (pages.take 5))).eraseIfExists p) := by
        unfold processPdfSmart
        rw [hread]
        dsimp only
        rw [if_neg hle]
      have hf := analyzeCOI_single_pdf_final_fs env g2cur fs
        ⟨p, "application/pdf"⟩ model rfl hmodel _ _ hps
      rw [hf]
      constructor
      · by_cases hpq : p = replaceFirst p ".pdf" "-5pages.pdf"
        · rw [← hpq]
          exact FS.lookup_eraseIfExists_self_none _ _
        · rw [FS.lookup_eraseIfExists_ne _ _ _ hpq]
          exact FS.lookup_eraseIfExists_self_none _ p
      · intro _
        exact FS.lookup_eraseIfExists_self_none _ _
  · intro files hne hle himg f hf
    rw [analyzeCOI_images_final_fs env g2cur fs files hne hle himg]
    exact FS.lookup_cleanupPaths_of_mem _ fs f.path
      (List.mem_map_of_mem _ hf)

/-- Witness for C1: a 6-page PDF handled by the gemini2 backend leaves
neither the upload nor the truncated file behind, and a groq image request
leaves no uploaded image behind. -/
theorem claim_C1_witness :
    ((AppController.analyzeCOI
        ⟨⟨fun _ => true, fun _ _ => .ok (some "x"), fun _ => none⟩,
          ⟨true, false, fun _ _ => .ok (some "x"), fun _ => none⟩,
          ⟨fun _ _ => .ok "x", fun _ => none⟩⟩
        Gemini2Service.PRIMARY_MODEL
        [⟨"1700-cc.pdf", "application/pdf"⟩] "gemini2"
        [("1700-cc.pdf", FsEntry.pdfDoc [0, 1, 2, 3, 4, 5])]).fs).lookup
        "1700-cc.pdf" = none
    ∧ ((AppController.analyzeCOI
        ⟨⟨fun _ => true, fun _ _ => .ok (some "x"), fun _ => none⟩,
          ⟨true, false, fun _ _ => .ok (some "x"), fun _ => none⟩,
          ⟨fun _ _ => .ok "x", fun _ => none⟩⟩
        Gemini2Service.PRIMARY_MODEL
        [⟨"1700-cc.pdf", "application/pdf"⟩] "gemini2"
        [("1700-cc.pdf", FsEntry.pdfDoc [0, 1, 2, 3, 4, 5])]).fs).lookup
        (replaceFirst "1700-cc.pdf" ".pdf" "-5pages.pdf") = none
    ∧ ((AppController.analyzeCOI
        ⟨⟨fun _ => true, fun _ _ => .ok (some "x"), fun _ => none⟩,
          ⟨true, false, fun _ _ => .ok (some "x"), fun _ => none⟩,
          ⟨fun _ _ => .ok "x", fun _ => none⟩⟩
        Gemini2Service.PRIMARY_MODEL
        [⟨"u2.png", "image/png"⟩] "groq"
        [("u2.png", FsEntry.imgFile)]).fs).lookup "u2.png" = none :=
  ⟨((claim_C1_artifact_cleanup
      ⟨⟨fun _ => true, fun _ _ => .ok (some "x"), fun _ => none⟩,
        ⟨true, false, fun _ _ => .ok (some "x"), fun _ => none⟩,
        ⟨fun _ _ => .ok "x", fun _ => none⟩⟩
      Gemini2Service.PRIMARY_MODEL
      [("1700-cc.pdf", FsEntry.pdfDoc [0, 1, 2, 3, 4, 5])]).1
      "1700-cc.pdf" [0, 1, 2, 3, 4, 5] "gemini2" (by decide)
      (Or.inr rfl)).1,
   ((claim_C1_artifact_cleanup
      ⟨⟨fun _ => true, fun _ _ => .ok (some "x"), fun _ => none⟩,
        ⟨true, false, fun _ _ => .ok (some "x"), fun _ => none⟩,
        ⟨fun _ _ => .ok "x", fun _ => none⟩⟩
      Gemini2Service.PRIMARY_MODEL
      [("1700-cc.pdf", FsEntry.pdfDoc [0, 1, 2, 3, 4, 5])]).1
      "1700-cc.pdf" [0, 1, 2, 3, 4, 5] "gemini2" (by decide)
      (Or.inr rfl)).2 (by decide),
   (claim_C1_artifact_cleanup
      ⟨⟨fun _ => true, fun _ _ => .ok (some "x"), fun _ => none⟩,
        ⟨true, false, fun _ _ => .ok (some "x"), fun _ => none⟩,
        ⟨fun _ _ => .ok "x", fun _ => none⟩⟩
      Gemini2Service.PRIMARY_MODEL
      [("u2.png", FsEntry.imgFile)]).2
      [⟨"u2.png", "image/png"⟩] (by decide) (by decide) (by decide)
      ⟨"u2.png", "image/png"⟩ (by decide)⟩
